import Mathlib

/-
Verification development for the email classification pipeline implemented in
`src/email_classifier_template.py`.

The Python program is shallowly embedded as follows:
- a Python exception is a value of `PyError`; code that can raise returns
  `Except PyError _`, and a `try/except` is a `match` on that result;
- an email record is a record of optional string fields (a missing dictionary
  key is `none`); `email["k"]` is `Email.getItem`, which raises `KeyError`
  on a missing key;
- the language-model completion call `client.chat.completions.create` is an
  arbitrary function `model : String → ApiResult`, where `ApiResult` records
  whether the call raised, returned `None`, returned an object without a
  usable `choices` list, or returned message contents;
- `str.strip` / `str.lower` are `pyStrip` / `pyLower` (ASCII case mapping,
  which covers every string the program produces);
- `str.format` with the single keyword argument `email_id` is `pyFormat`,
  modelling Python's parse of replacement fields for the forms that occur in
  the program (named fields, no escape doubling occurs in any template):
  a field whose text is exactly the keyword name is substituted, any other
  field raises `KeyError` (as Python does for the unknown argument name
  `email` in the field `email['email_id']`), and an unterminated or stray
  brace raises `ValueError`;
- the five collaborator calls (`create_urgent_ticket`, `create_support_ticket`,
  `send_complaint_response`, `send_standard_response`,
  `log_customer_feedback`) are pure event emissions collected in a
  `List Event`, in call order; mocks never raise;
- `EmailAutomationSystem.process_email` receives its classifier and responder
  through the injected processor, embedded as the `Processor` record; the
  concrete `EmailProcessor` instance is `emailProcessor model`.
-/

set_option autoImplicit false
set_option maxRecDepth 8192

/-- Python exception kinds that the embedded code can raise. -/
inductive PyError where
  | keyError
  | attributeError
  | indexError
  | valueError
  | apiError
  deriving DecidableEq, Repr

/-- Outcome of one `client.chat.completions.create(...)` call: the call can
raise, return Python `None`, return an object whose `choices` attribute is
missing (`ret none`), or return a list of messages whose `content` attributes
are optional strings. -/
inductive ApiResult where
  | raise
  | retNone
  | ret (choices : Option (List (Option String)))
  deriving DecidableEq, Repr

/-- The evaluation of `response.choices[0].message.content` (line 112 / 168):
raises if the call raised, if `response` is `None`, if `choices` is missing or
empty, or if the first message's `content` is `None`. -/
def api_content : ApiResult → Except PyError String
  | ApiResult.raise => Except.error PyError.apiError
  | ApiResult.retNone => Except.error PyError.attributeError
  | ApiResult.ret none => Except.error PyError.attributeError
  | ApiResult.ret (some []) => Except.error PyError.indexError
  | ApiResult.ret (some (none :: _)) => Except.error PyError.attributeError
  | ApiResult.ret (some (some content :: _)) => Except.ok content

/-- `response is None` (line 114). -/
def response_is_none : ApiResult → Bool
  | ApiResult.retNone => true
  | _ => false

/-- `hasattr(response, "choices")` (line 114): true exactly when the call
returned an object carrying a `choices` attribute. -/
def has_choices : ApiResult → Bool
  | ApiResult.ret (some _) => true
  | _ => false

/-- Characters removed by Python `str.strip()` (ASCII whitespace). -/
def isPyWhitespace (c : Char) : Bool :=
  c = ' ' || c = '\t' || c = '\n' || c = '\r' || c = Char.ofNat 11 || c = Char.ofNat 12

/-- Python `str.strip()`. -/
def pyStrip (s : String) : String :=
  String.mk (((s.data.dropWhile isPyWhitespace).reverse.dropWhile isPyWhitespace).reverse)

/-- ASCII lower-casing of one character, as Python `str.lower()` does on the
ASCII strings this program handles. -/
def pyLowerChar (c : Char) : Char :=
  if 65 ≤ c.toNat ∧ c.toNat ≤ 90 then Char.ofNat (c.toNat + 32) else c

/-- Python `str.lower()`. -/
def pyLower (s : String) : String :=
  String.mk (s.data.map pyLowerChar)

/-- The `\x7b` character opening a replacement field in `str.format`. -/
def lbrace : Char := Char.ofNat 123

/-- The `\x7d` character closing a replacement field in `str.format`. -/
def rbrace : Char := Char.ofNat 125

/-- Scanner state for `pyFormat`: outside a replacement field, or inside one
with the field text accumulated in reverse. -/
inductive FmtState where
  | text
  | field (acc : List Char)

/-- Substitution of one replacement field, given the single keyword argument
`kw := v`: a field that is exactly the keyword name yields the value; any
other field (such as `email['email_id']`, whose argument name `email` is not
among the keyword arguments) raises `KeyError`. -/
def substField (kw v : String) (field : List Char) : Except PyError (List Char) :=
  if field = kw.data then Except.ok v.data else Except.error PyError.keyError

/-- Character scanner for `pyFormat`. -/
def pyFormatAux (kw v : String) : FmtState → List Char → Except PyError (List Char)
  | FmtState.text, [] => Except.ok []
  | FmtState.text, c :: rest =>
    if c = lbrace then
      pyFormatAux kw v (FmtState.field []) rest
    else if c = rbrace then
      Except.error PyError.valueError
    else
      match pyFormatAux kw v FmtState.text rest with
      | Except.error ex => Except.error ex
      | Except.ok t => Except.ok (c :: t)
  | FmtState.field _, [] => Except.error PyError.valueError
  | FmtState.field acc, c :: rest =>
    if c = rbrace then
      match substField kw v acc.reverse with
      | Except.error ex => Except.error ex
      | Except.ok sub =>
        match pyFormatAux kw v FmtState.text rest with
        | Except.error ex => Except.error ex
        | Except.ok t => Except.ok (sub ++ t)
    else
      pyFormatAux kw v (FmtState.field (c :: acc)) rest

/-- Python `template.format(kw=v)` restricted to one keyword argument, the
only form the program uses (line 145). -/
def pyFormat (template kw v : String) : Except PyError String :=
  match pyFormatAux kw v FmtState.text template.data with
  | Except.error ex => Except.error ex
  | Except.ok l => Except.ok (String.mk l)

/-- An incoming email record: a Python dict whose five possible keys are
modelled as optional fields (`none` = key absent). `from_` models the key
`"from"` (a Lean keyword). -/
structure Email where
  id : Option String
  from_ : Option String
  subject : Option String
  body : Option String
  timestamp : Option String
  deriving DecidableEq, Repr

/-- Key lookup in the email dict. -/
def Email.lookup (e : Email) (f : String) : Option String :=
  if f = "id" then e.id
  else if f = "from" then e.from_
  else if f = "subject" then e.subject
  else if f = "body" then e.body
  else if f = "timestamp" then e.timestamp
  else none

/-- Python `f in email` (key-presence test). -/
def Email.hasField (e : Email) (f : String) : Bool :=
  (e.lookup f).isSome

/-- Python `email[f]`: the value, or `KeyError` when the key is absent. -/
def Email.getItem (e : Email) (f : String) : Except PyError String :=
  match e.lookup f with
  | some v => Except.ok v
  | none => Except.error PyError.keyError

/-- `required_fields` from `EmailProcessor.validate_email` (line 74). -/
def required_fields : List String :=
  ["id", "from", "subject", "body", "timestamp"]

/-- `EmailProcessor.validate_email` (lines 72-78): true iff every required
field is a present key. -/
def validate_email (e : Email) : Bool :=
  required_fields.all (fun f => e.hasField f)

/-- `self.valid_categories` (lines 67-70). -/
def valid_categories : List String :=
  ["complaint", "inquiry", "feedback", "support_request", "other"]

/-- The classification prompt (lines 90-102), an f-string embedding only
`email['body']`. -/
def classification_prompt (body : String) : String :=
  "\n        You are an expert customer service representative. Your task is to classify a given email into one of the following categories:\n\n        - complaint: Emails that express dissatisfaction with a product or service.\n        - inquiry: Questions about products and services.\n        - feedback: Positive or neutral messages about products or services.\n        - support_request: Requests for assistance or support.\n        - other: Emails that do not fit into any of the above categories.\n\n        Here\x27s the email content: "
    ++ body
    ++ "\n\n        Please respond only with the category name from the list above. DO NOT include any additional information.\n        "

/-- The body of the `try` block of `classify_email` (lines 104-121): read the
first choice's content (line 112, which is where a `None` or malformed
response actually raises), then the dead malformed-response guard (line 114),
then the vocabulary check (lines 118-121). -/
def classify_try (response : ApiResult) : Except PyError (Option String) :=
  match api_content response with
  | Except.error ex => Except.error ex
  | Except.ok content =>
    let result := pyLower (pyStrip content)
    if response_is_none response || !(has_choices response) then
      Except.ok none
    else if valid_categories.contains result then
      Except.ok (some result)
    else
      Except.ok none

/-- `EmailProcessor.classify_email` (lines 80-125): the prompt construction
reads `email['body']` outside the `try` (so a missing body raises out of the
function); everything inside the `try` degrades to `None` on any exception. -/
def classify_email (model : String → ApiResult) (e : Email) : Except PyError (Option String) :=
  match e.getItem "body" with
  | Except.error ex => Except.error ex
  | Except.ok body =>
    match classify_try (model (classification_prompt body)) with
    | Except.ok v => Except.ok v
    | Except.error _ => Except.ok none

/-- Instrumentation for the guard on line 114 of `classify_email`: true iff an
execution on API outcome `response` reaches the guard's then-branch (the
content read on line 112 succeeded and the guard condition holds). -/
def classify_guard_reached (response : ApiResult) : Bool :=
  match api_content response with
  | Except.error _ => false
  | Except.ok _ => response_is_none response || !(has_choices response)

/-- `self.response_templates` lookup (lines 136-144). The complaint and
support_request templates contain the literal field `\x7bemail['email_id']\x7d`
(braces written as character escapes here). A key outside the dict — including
Python `None` — raises `KeyError`. -/
def response_templates_lookup : Option String → Except PyError String
  | none => Except.error PyError.keyError
  | some s =>
    if s = "complaint" then
      Except.ok "Dear user,\n\n We apologize for the terrible experience you had with the product your received.\n\n Your issue number is \x7bemail[\x27email_id\x27]\x7d One of our team members is looking into it and you will have a proper resolution in the next 24 hours.\n\n Thank you for your patience."
    else if s = "inquiry" then
      Except.ok "Dear user,\n\n Thank you for contacting us.\n\n You will be contacted by one of our team members with a response to your question soon.\n\n Best regards."
    else if s = "feedback" then
      Except.ok "Dear user,\n\n We appreciate the time you took to share your feedback.\n\n It help us improve our products so that we can serve you best.\n\n Thank you."
    else if s = "support_request" then
      Except.ok "Dear user,\n\n We received your request. Your support ticket number is support-\x7bemail[\x27email_id\x27]\x7d and a member of the technical team will reach out to you with a proper response to your issue.\n\n Thank you for your patience."
    else if s = "other" then
      Except.ok "Dear user,\n\n We are processing your message and if needed you will get a response shortly.\n\n Thank you."
    else
      Except.error PyError.keyError

/-- Python `str(x)` on the classification value interpolated into the
refinement prompt. -/
def pyOptStr : Option String → String
  | none => "None"
  | some s => s

/-- The response-refinement prompt (lines 147-159). -/
def response_prompt (body classification filled_template : String) : String :=
  "\n        You are an experienced customer support agent. Your task is to take the following email \n        response template and enhance it based on the email content and its classification.\n\n        Email content: "
    ++ body
    ++ "\n        Classification: "
    ++ classification
    ++ "\n\n        Response template: "
    ++ filled_template
    ++ "\n\n        Please keep the tone of the original template and use empathetic language in the response.\n        Be professional and concise (max 3-4 sentences). DO NOT add any placeholders like [NAME] or [PRODUCT]. \n        Only use information from the body of the email.\n        "

/-- `EmailProcessor.generate_response` (lines 127-171): template lookup
(line 144), `email['id']` and the format call (line 145), `email['body']` in
the prompt (line 151) all run outside the `try` and raise to the caller; the
API call and content read are inside the `try`, whose handler only logs, so
the function falls off the end and returns Python `None` on API failure. -/
def generate_response (model : String → ApiResult) (e : Email) (classification : Option String) :
    Except PyError (Option String) :=
  match response_templates_lookup classification with
  | Except.error ex => Except.error ex
  | Except.ok base_template =>
    match e.getItem "id" with
    | Except.error ex => Except.error ex
    | Except.ok eid =>
      match pyFormat base_template "email_id" eid with
      | Except.error ex => Except.error ex
      | Except.ok filled_template =>
        match e.getItem "body" with
        | Except.error ex => Except.error ex
        | Except.ok body =>
          match api_content (model (response_prompt body (pyOptStr classification) filled_template)) with
          | Except.ok content => Except.ok (some (pyStrip content))
          | Except.error _ => Except.ok none

/-- One collaborator call (mock service functions, lines 273-300), recorded
with its arguments in call order. The response argument can be Python `None`. -/
inductive Event where
  | create_urgent_ticket (email_id category context : String)
  | send_complaint_response (email_id : String) (response : Option String)
  | send_standard_response (email_id : String) (response : Option String)
  | create_support_ticket (email_id context : String)
  | log_customer_feedback (email_id feedback : String)
  deriving DecidableEq, Repr

/-- `_handle_complaint` (lines 234-240). -/
def handle_complaint (e : Email) (response : Option String) : Except PyError (List Event) :=
  match e.getItem "id", e.getItem "body" with
  | Except.ok i, Except.ok b =>
    Except.ok [Event.create_urgent_ticket i "complaint" b, Event.send_complaint_response i response]
  | Except.error ex, _ => Except.error ex
  | _, Except.error ex => Except.error ex

/-- `_handle_inquiry` (lines 242-247). -/
def handle_inquiry (e : Email) (response : Option String) : Except PyError (List Event) :=
  match e.getItem "id" with
  | Except.ok i => Except.ok [Event.send_standard_response i response]
  | Except.error ex => Except.error ex

/-- `_handle_feedback` (lines 249-255). -/
def handle_feedback (e : Email) (response : Option String) : Except PyError (List Event) :=
  match e.getItem "id", e.getItem "body" with
  | Except.ok i, Except.ok b =>
    Except.ok [Event.log_customer_feedback i b, Event.send_standard_response i response]
  | Except.error ex, _ => Except.error ex
  | _, Except.error ex => Except.error ex

/-- `_handle_support_request` (lines 257-263). -/
def handle_support_request (e : Email) (response : Option String) : Except PyError (List Event) :=
  match e.getItem "id", e.getItem "body" with
  | Except.ok i, Except.ok b =>
    Except.ok [Event.create_support_ticket i b, Event.send_standard_response i response]
  | Except.error ex, _ => Except.error ex
  | _, Except.error ex => Except.error ex

/-- `_handle_other` (lines 265-270). -/
def handle_other (e : Email) (response : Option String) : Except PyError (List Event) :=
  match e.getItem "id" with
  | Except.ok i => Except.ok [Event.send_standard_response i response]
  | Except.error ex => Except.error ex

/-- `classification not in self.response_handlers` negated (line 207): the
handler dict (lines 176-182) has exactly the five category keys; Python
`None in dict` is false. -/
def isHandled : Option String → Bool
  | none => false
  | some s =>
    if s = "complaint" then true
    else if s = "inquiry" then true
    else if s = "feedback" then true
    else if s = "support_request" then true
    else if s = "other" then true
    else false

/-- `self.response_handlers[classification](email, response)` (line 216). -/
def response_handlers_dispatch (classification : Option String) (e : Email) (response : Option String) :
    Except PyError (List Event) :=
  if classification = some "complaint" then handle_complaint e response
  else if classification = some "inquiry" then handle_inquiry e response
  else if classification = some "feedback" then handle_feedback e response
  else if classification = some "support_request" then handle_support_request e response
  else if classification = some "other" then handle_other e response
  else Except.error PyError.keyError

/-- The classifier/responder pair `EmailAutomationSystem` receives through its
injected `EmailProcessor` (line 173-175). -/
structure Processor where
  classify : Email → Except PyError (Option String)
  generate : Email → Option String → Except PyError (Option String)

/-- The concrete `EmailProcessor` backed by completion function `model`. -/
def emailProcessor (model : String → ApiResult) : Processor :=
  { classify := classify_email model
    generate := generate_response model }

/-- ProcessingResult: the dict returned by `process_email`. -/
structure ProcessingResult where
  email_id : String
  success : Bool
  classification : Option String
  response_sent : Option String
  deriving DecidableEq, Repr

/-- The body of the `try` block of `process_email` (lines 204-223): classify,
reject an unrecognized classification with a failure dict carrying the raw
value, otherwise generate the response, dispatch, and build the success dict. -/
def process_try (p : Processor) (e : Email) : Except PyError (ProcessingResult × List Event) :=
  match p.classify e with
  | Except.error ex => Except.error ex
  | Except.ok classification =>
    if isHandled classification = false then
      match e.getItem "id" with
      | Except.error ex => Except.error ex
      | Except.ok i =>
        Except.ok ({ email_id := i, success := false, classification := classification,
                     response_sent := none }, [])
    else
      match p.generate e classification with
      | Except.error ex => Except.error ex
      | Except.ok response =>
        match response_handlers_dispatch classification e response with
        | Except.error ex => Except.error ex
        | Except.ok events =>
          match e.getItem "id" with
          | Except.error ex => Except.error ex
          | Except.ok i =>
            Except.ok ({ email_id := i, success := true, classification := classification,
                         response_sent := response }, events)

/-- `EmailAutomationSystem.process_email` (lines 184-231). Both failure dicts
(lines 197-202 and 226-231) read `email['id']`, so they raise `KeyError`
when the id key itself is the missing one. -/
def process_email (p : Processor) (e : Email) : Except PyError (ProcessingResult × List Event) :=
  if validate_email e = false then
    match e.getItem "id" with
    | Except.error ex => Except.error ex
    | Except.ok i =>
      Except.ok ({ email_id := i, success := false, classification := none,
                   response_sent := none }, [])
  else
    match process_try p e with
    | Except.ok res => Except.ok res
    | Except.error _ =>
      match e.getItem "id" with
      | Except.error ex => Except.error ex
      | Except.ok i =>
        Except.ok ({ email_id := i, success := false, classification := none,
                     response_sent := none }, [])

/-- Two consecutive `process_email` calls on the same email (the program holds
no mutable state between calls, so both runs are the same function
application). -/
def process_twice (p : Processor) (e : Email) :
    Except PyError (ProcessingResult × List Event) × Except PyError (ProcessingResult × List Event) :=
  (process_email p e, process_email p e)

/-- Body of sample email 001 (lines 20-26). -/
def body001 : String :=
  "I received my order #12345 yesterday but it arrived completely damaged. This is unacceptable and I demand a refund immediately. This is the worst customer service I\x27ve experienced."

/-- Sample email 001 (lines 20-26), all five fields present. -/
def email001 : Email :=
  { id := some "001"
    from_ := some "angry.customer@example.com"
    subject := some "Broken product received"
    body := some body001
    timestamp := some "2024-03-15T10:30:00Z" }

/-- Sample email 001 with the `id` key removed. -/
def emailMissingId : Email :=
  { email001 with id := none }

/-- Sample email 001 with the `subject` key removed and id "777". -/
def emailMissingSubject : Email :=
  { email001 with id := some "777", subject := none }

/-- A deterministic model stub whose completion reply is always "complaint". -/
def complaintStubModel : String → ApiResult :=
  fun _ => ApiResult.ret (some [some "complaint"])

/-- A model stub whose completion call always returns Python `None`. -/
def noneModel : String → ApiResult :=
  fun _ => ApiResult.retNone

/-- A deterministic model stub that answers "feedback" to the classification
prompt for sample email 001 and raises on any other prompt (in particular on
the response-refinement prompt). -/
def c1Model : String → ApiResult :=
  fun prompt =>
    if prompt = classification_prompt body001 then ApiResult.ret (some [some "feedback"])
    else ApiResult.raise

/-- A stub processor whose classifier returns the out-of-vocabulary string
"spam" and whose responder would raise if it were ever invoked. -/
def spamProcessor : Processor :=
  { classify := fun _ => Except.ok (some "spam")
    generate := fun _ _ => Except.error PyError.valueError }

/-- Either the classification is Python `None` or it is one of the five valid
categories. -/
def is_valid_or_none : Option String → Bool
  | none => true
  | some c => valid_categories.contains c

theorem Email.lookup_id (e : Email) : e.lookup "id" = e.id := rfl

theorem Email.lookup_from (e : Email) : e.lookup "from" = e.from_ := rfl

theorem Email.lookup_subject (e : Email) : e.lookup "subject" = e.subject := rfl

theorem Email.lookup_body (e : Email) : e.lookup "body" = e.body := rfl

theorem Email.lookup_timestamp (e : Email) : e.lookup "timestamp" = e.timestamp := rfl

theorem Email.getItem_id (e : Email) (i : String) (hi : e.id = some i) :
    e.getItem "id" = Except.ok i := by
  simp [Email.getItem, Email.lookup_id, hi]

theorem Email.getItem_body (e : Email) (b : String) (hb : e.body = some b) :
    e.getItem "body" = Except.ok b := by
  simp [Email.getItem, Email.lookup_body, hb]

theorem validate_email_fields (e : Email) (hv : validate_email e = true) :
    (∃ i, e.id = some i) ∧ (∃ b, e.body = some b) := by
  unfold validate_email required_fields at hv
  simp [List.all_cons, List.all_nil, Email.hasField, Email.lookup_id, Email.lookup_from,
    Email.lookup_subject, Email.lookup_body, Email.lookup_timestamp] at hv
  exact ⟨Option.isSome_iff_exists.mp hv.1, Option.isSome_iff_exists.mp hv.2.2.2.1⟩

/-- C2: with every field present and a model stub classifying sample email 001
as "complaint", `process_email` does NOT produce the success result the claim
describes: the template fill `base_template.format(email_id=email['id'])`
raises `KeyError` because the complaint template's replacement field is
`email['email_id']` rather than the keyword `email_id`; the orchestrator
catches it and returns a failure result with classification and response both
null and no collaborator invoked. -/
theorem complaint_template_fill_keyerror_bug :
    pyFormat "Your issue number is \x7bemail[\x27email_id\x27]\x7d" "email_id" "001" =
      Except.error PyError.keyError ∧
    generate_response complaintStubModel email001 (some "complaint") =
      Except.error PyError.keyError ∧
    process_email (emailProcessor complaintStubModel) email001 =
      Except.ok ({ email_id := "001", success := false, classification := none,
                   response_sent := none }, []) :=
  ⟨rfl, rfl, rfl⟩

/-- C3: an email whose missing required field is `id` itself makes
`process_email` raise `KeyError` (the failure dict on line 198 reads
`email['id']`) instead of returning a failure result; when a different field
(here `subject`) is the missing one, the claimed failure result with no
collaborator calls is returned. -/
theorem missing_id_keyerror_bug :
    process_email (emailProcessor complaintStubModel) emailMissingId =
      Except.error PyError.keyError ∧
    process_email (emailProcessor complaintStubModel) emailMissingSubject =
      Except.ok ({ email_id := "777", success := false, classification := none,
                   response_sent := none }, []) :=
  ⟨rfl, rfl⟩

/-- C8: with a deterministic completion function, two `process_email` calls on
the same email record produce identical results — the embedded pipeline is a
pure function of the model and the email, holding no mutable state. -/
theorem process_email_idempotent (model : String → ApiResult) (e : Email) :
    (process_twice (emailProcessor model) e).1 = (process_twice (emailProcessor model) e).2 :=
  rfl

/-- C9: the classification prompt embeds only `email['body']`, so two valid
email records with equal bodies are classified identically by the same
deterministic model, whatever their other fields are. -/
theorem classify_email_depends_only_on_body (model : String → ApiResult)
    (e1 e2 : Email) (b : String) (h1 : e1.body = some b) (h2 : e2.body = some b) :
    classify_email model e1 = classify_email model e2 := by
  unfold classify_email
  rw [Email.getItem_body e1 b h1, Email.getItem_body e2 b h2]

/-- C9 witness: two emails sharing the body of sample email 001 but differing
in id, sender, subject and timestamp classify identically. -/
theorem classify_email_depends_only_on_body_witness :
    classify_email complaintStubModel email001 =
      classify_email complaintStubModel
        { id := some "999", from_ := some "someone.else@example.org", subject := some "Other subject",
          body := some body001, timestamp := some "2025-01-01T00:00:00Z" } :=
  classify_email_depends_only_on_body complaintStubModel email001
    { id := some "999", from_ := some "someone.else@example.org", subject := some "Other subject",
      body := some body001, timestamp := some "2025-01-01T00:00:00Z" } body001 rfl rfl

/-- C5: for every email and every classification value outside the five valid
categories — including Python `None` — `generate_response` raises `KeyError`
from the template-dict lookup on line 144, before any other work and outside
its `try`, so the error propagates to the caller instead of becoming a null
return. -/
theorem generate_response_invalid_classification_keyerror
    (model : String → ApiResult) (e : Email) (c : Option String)
    (hbad : isHandled c = false) :
    generate_response model e c = Except.error PyError.keyError := by
  have hlook : response_templates_lookup c = Except.error PyError.keyError := by
    cases c with
    | none => rfl
    | some s =>
      simp only [isHandled] at hbad
      simp only [response_templates_lookup]
      split_ifs at hbad ⊢
      all_goals simp_all
  simp only [generate_response, hlook]

/-- C5 witness: the out-of-vocabulary classification "spam" makes
`generate_response` raise `KeyError` on sample email 001. -/
theorem generate_response_invalid_classification_keyerror_witness :
    generate_response complaintStubModel email001 (some "spam") = Except.error PyError.keyError :=
  generate_response_invalid_classification_keyerror complaintStubModel email001 (some "spam") rfl

/-- C10: the malformed-response guard on line 114 of `classify_email` is
unreachable — reaching it requires the `choices` read on line 112 to have
succeeded, which contradicts the guard's condition; every API outcome whose
content read raises (the call raised, returned `None`, returned an object
without usable choices, or a message without content) is absorbed by the
`except` handler, which returns `None`; and for every model behaviour and
every email carrying a body key, `classify_email` never raises. -/
theorem classify_email_guard_unreachable_total :
    (∀ response : ApiResult, classify_guard_reached response = false) ∧
    (∀ (model : String → ApiResult) (e : Email) (b : String) (ex : PyError),
      e.body = some b → api_content (model (classification_prompt b)) = Except.error ex →
      classify_email model e = Except.ok none) ∧
    (∀ (model : String → ApiResult) (e : Email) (b : String) (ex : PyError),
      e.body = some b → classify_email model e ≠ Except.error ex) := by
  refine ⟨?_, ?_, ?_⟩
  · intro response
    cases response with
    | raise => rfl
    | retNone => rfl
    | ret choices =>
      cases choices with
      | none => rfl
      | some l =>
        cases l with
        | nil => rfl
        | cons hd tl => cases hd <;> rfl
  · intro model e b ex hb herr
    simp only [classify_email, Email.getItem_body e b hb, classify_try, herr]
  · intro model e b ex hb hcontra
    simp only [classify_email, Email.getItem_body e b hb] at hcontra
    cases h : classify_try (model (classification_prompt b)) <;> simp [h] at hcontra

/-- C10 witness: the guard never fires on a `None` API return; a model whose
call returns `None` still yields a caught `Except.ok none` classification on
sample email 001; and `classify_email` does not raise there. -/
theorem classify_email_guard_unreachable_total_witness :
    classify_guard_reached ApiResult.retNone = false ∧
    classify_email noneModel email001 = Except.ok none ∧
    classify_email complaintStubModel email001 ≠ Except.error PyError.keyError :=
  ⟨classify_email_guard_unreachable_total.1 ApiResult.retNone,
   classify_email_guard_unreachable_total.2.1 noneModel email001 body001
     PyError.attributeError rfl rfl,
   classify_email_guard_unreachable_total.2.2 complaintStubModel email001 body001
     PyError.keyError rfl⟩

/-- C4: for every email with all required fields and every model behaviour,
`classify_email` never raises (every exception inside the `try` is caught and
logged, yielding `None`) and every value it returns is either `None` or a
member of the five-category set — never any other string, because the model's
reply is trimmed, lower-cased and checked against `valid_categories` before
being returned. -/
theorem classify_email_valid_or_none (model : String → ApiResult) (e : Email)
    (hv : validate_email e = true) :
    (∀ ex : PyError, classify_email model e ≠ Except.error ex) ∧
    (∀ r : Option String, classify_email model e = Except.ok r → is_valid_or_none r = true) := by
  obtain ⟨-, b, hb⟩ := validate_email_fields e hv
  have hgb := Email.getItem_body e b hb
  constructor
  · intro ex hcontra
    simp only [classify_email, hgb] at hcontra
    cases h : classify_try (model (classification_prompt b)) <;> simp [h] at hcontra
  · intro r hr
    simp only [classify_email, hgb] at hr
    cases h : classify_try (model (classification_prompt b)) with
    | error ex =>
      simp only [h] at hr
      injection hr with hr2
      subst hr2
      rfl
    | ok v =>
      simp only [h] at hr
      injection hr with hr2
      subst hr2
      simp only [classify_try] at h
      cases hc : api_content (model (classification_prompt b)) with
      | error ex => simp [hc] at h
      | ok content =>
        simp only [hc] at h
        split at h
        · injection h with h2
          subst h2
          rfl
        · split at h
          case isTrue hm =>
            injection h with h2
            subst h2
            simpa [is_valid_or_none] using hm
          case isFalse =>
            injection h with h2
            subst h2
            rfl

/-- C4 witness: the "complaint" stub reply is accepted on sample email 001,
with no exception and a value that is valid-or-null. -/
theorem classify_email_valid_or_none_witness :
    classify_email complaintStubModel email001 ≠ Except.error PyError.apiError ∧
    is_valid_or_none (some "complaint") = true :=
  ⟨(classify_email_valid_or_none complaintStubModel email001 rfl).1 PyError.apiError,
   (classify_email_valid_or_none complaintStubModel email001 rfl).2 (some "complaint") rfl⟩

/-- C6: for every validated email, any exception raised inside the `try` block
of `process_email` (classification, response generation, or dispatch) is
caught at the orchestrator boundary and converted to a failure result with
null classification and null response, discarding any partial result. -/
theorem process_email_exception_failure_result (p : Processor) (e : Email)
    (i : String) (ex : PyError)
    (hv : validate_email e = true) (hi : e.id = some i)
    (herr : process_try p e = Except.error ex) :
    process_email p e =
      Except.ok ({ email_id := i, success := false, classification := none,
                   response_sent := none }, []) := by
  simp [process_email, hv, herr, Email.getItem_id e i hi]

/-- C6 witness: on sample email 001 with the "complaint" stub, the responder's
template fill raises `KeyError` after a valid classification was computed, and
`process_email` still returns the uniform failure result. -/
theorem process_email_exception_failure_result_witness :
    process_email (emailProcessor complaintStubModel) email001 =
      Except.ok ({ email_id := "001", success := false, classification := none,
                   response_sent := none }, []) :=
  process_email_exception_failure_result (emailProcessor complaintStubModel) email001
    "001" PyError.keyError rfl rfl rfl

/-- C7: for every validated email, whatever responder the processor carries,
if the classifier returns null or a string outside the five dispatch
categories, `process_email` returns a failure result carrying that raw
classification value unchanged, with a null response and no collaborator
event — the responder and the handlers are never run. -/
theorem process_email_unrecognized_classification (p : Processor) (e : Email)
    (i : String) (c : Option String)
    (hv : validate_email e = true) (hi : e.id = some i)
    (hc : p.classify e = Except.ok c) (hbad : isHandled c = false) :
    process_email p e =
      Except.ok ({ email_id := i, success := false, classification := c,
                   response_sent := none }, []) := by
  simp [process_email, process_try, hv, hc, hbad, Email.getItem_id e i hi]

/-- C7 witness: a stub classifier answering "spam" (with a responder that
would raise if invoked) yields the diagnostic passthrough failure result on
sample email 001. -/
theorem process_email_unrecognized_classification_witness :
    process_email spamProcessor email001 =
      Except.ok ({ email_id := "001", success := false, classification := some "spam",
                   response_sent := none }, []) :=
  process_email_unrecognized_classification spamProcessor email001 "001" (some "spam")
    rfl rfl rfl rfl

/-- C1 counterexample: with the deterministic model `c1Model` (which
classifies sample email 001 as "feedback" and raises on the refinement
prompt), `process_email` returns success = true together with
response_sent = null — the claimed invariant fails on the code. -/
theorem success_with_null_response_counterexample :
    Except.map (fun res => (res.1.success, res.1.classification, res.1.response_sent))
        (process_email (emailProcessor c1Model) email001) =
      Except.ok (true, some "feedback", none) :=
  rfl

/-- C1 amended: whenever `process_email` returns a result with success = true,
its classification is one of the five dispatch categories; the response_sent
field, however, is whatever `generate_response` produced and can be null
(the refinement `try` handler only logs and falls through to `None`, and the
orchestrator sends and reports that null response as a success). -/
theorem success_implies_handled_classification (p : Processor) (e : Email)
    (res : ProcessingResult) (events : List Event)
    (h : process_email p e = Except.ok (res, events)) (hs : res.success = true) :
    isHandled res.classification = true := by
  simp only [process_email] at h
  split at h
  · cases hid : e.getItem "id" with
    | error ex => simp [hid] at h
    | ok i =>
      simp only [hid] at h
      injection h with h2
      injection h2 with h3 h4
      rw [← h3] at hs
      exact absurd hs (by simp)
  · cases htry : process_try p e with
    | error ex =>
      simp only [htry] at h
      cases hid : e.getItem "id" with
      | error ex2 => simp [hid] at h
      | ok i =>
        simp only [hid] at h
        injection h with h2
        injection h2 with h3 h4
        rw [← h3] at hs
        exact absurd hs (by simp)
    | ok val =>
      simp only [htry] at h
      injection h with h2
      subst h2
      simp only [process_try] at htry
      cases hcl : p.classify e with
      | error ex => simp [hcl] at htry
      | ok classification =>
        simp only [hcl] at htry
        split at htry
        case isTrue hband =>
          cases hid : e.getItem "id" with
          | error ex2 => simp [hid] at htry
          | ok i =>
            simp only [hid] at htry
            injection htry with h2
            injection h2 with h3 h4
            rw [← h3] at hs
            exact absurd hs (by simp)
        case isFalse hband =>
          cases hgen : p.generate e classification with
          | error ex2 => simp [hgen] at htry
          | ok response =>
            simp only [hgen] at htry
            cases hdisp : response_handlers_dispatch classification e response with
            | error ex2 => simp [hdisp] at htry
            | ok events2 =>
              simp only [hdisp] at htry
              cases hid : e.getItem "id" with
              | error ex2 => simp [hid] at htry
              | ok i =>
                simp only [hid] at htry
                injection htry with h2
                injection h2 with h3 h4
                rw [← h3]
                cases hbv : isHandled classification with
                | false => exact absurd hbv hband
                | true => rfl

/-- C1 amended witness: the success = true run produced by `c1Model` on sample
email 001 indeed carries a classification among the five categories. -/
theorem success_implies_handled_classification_witness :
    isHandled (some "feedback") = true :=
  success_implies_handled_classification (emailProcessor c1Model) email001
    { email_id := "001", success := true, classification := some "feedback",
      response_sent := none }
    [Event.log_customer_feedback "001" body001, Event.send_standard_response "001" none]
    rfl rfl
